import Mathlib

/-!
Shallow embedding of `dmc2gym/natural_imgsource_invariant.py`.

Numpy arrays are modelled as structures carrying their shape together with a
total indexing function (out-of-range reads are irrelevant: every theorem
constrains indices where the code does).  The external collaborators
(`cv2.imread`, `cv2.resize`, `skvideo.io.vread`, the numpy random stream and
`random.shuffle`) are parameters of the definitions that call them;
`np.random.randint(lo, hi)` is modelled by `randint lo hi seed`, which for any
seed lands in `[lo, hi)` whenever `lo < hi`, exactly the guarantee numpy gives
for a fresh draw.  A decoder returning `none` stands for a decode failure
(`cv2.imread` returning `None` / `skvideo` raising); Python exception
propagation is the `Option` monad.
-/

namespace NatImgSource

/-- Pixel content of a (h, w, c) array: row, column, channel to value. -/
abbrev Px := Nat → Nat → Nat → Int

/-- A 3-dimensional numpy array of shape (h, w, c). -/
structure NpArr3 where
  h : Nat
  w : Nat
  c : Nat
  px : Px

/-- A 4-dimensional numpy frame buffer of shape (n, h, w, c). -/
structure NpArr4 where
  n : Nat
  h : Nat
  w : Nat
  c : Nat
  frame : Nat → Px

/-- A 2-dimensional numpy array of shape (n, 3): a palette of n colors. -/
structure NpArr2 where
  n : Nat
  row : Nat → Nat → Int

/-- A boolean numpy array, as produced by broadcast comparison. -/
structure NpBoolArr where
  h : Nat
  w : Nat
  c : Nat
  px : Nat → Nat → Nat → Bool

/-- Model of `np.random.randint(lo, hi)`: a draw from `[lo, hi)` determined by
the consumed seed.  For `lo < hi` the result is in range for every seed. -/
def randint (lo hi seed : Nat) : Nat := lo + seed % (hi - lo)

theorem randint_lt (lo hi seed : Nat) (h : lo < hi) : randint lo hi seed < hi := by
  have hpos : 0 < hi - lo := Nat.sub_pos_of_lt h
  have := Nat.mod_lt seed hpos
  unfold randint
  omega

theorem randint_zero_lt (n seed : Nat) (h : 0 < n) : randint 0 n seed < n := by
  simpa using randint_lt 0 n seed h

/-! ### BackgroundMatting -/

/-- State of `BackgroundMatting`: the configured color, channel-indexed (a
grayscale scalar is the constant function). -/
structure BackgroundMatting where
  color : Nat → Int

/-- Model of `BackgroundMatting.get_mask`: `return img == self._color`, numpy
broadcast equality of a (h, w, c) array against a length-c color, giving a
boolean array of the same (h, w, c) shape, true per channel where equal. -/
def BackgroundMatting.get_mask (m : BackgroundMatting) (img : NpArr3) : NpBoolArr :=
  ⟨img.h, img.w, img.c, fun i j k => decide (img.px i j k = m.color k)⟩

/-! ### FixedColorSource -/

/-- State of `FixedColorSource`: the prebuilt constant array. -/
structure FixedColorSource where
  arr : NpArr3

/-- Model of `FixedColorSource.__init__`: `arr = np.zeros((h, w, 3))` then
`arr[:, :] = color`. -/
def FixedColorSource.init (shape : Nat × Nat) (color : Nat → Int) : FixedColorSource :=
  ⟨⟨shape.1, shape.2, 3, fun _ _ k => color k⟩⟩

/-- Model of `FixedColorSource.get_image`. -/
def FixedColorSource.get_image (s : FixedColorSource) : NpArr3 := s.arr

/-- Model of `FixedColorSource.reset` (inherited no-op `pass`). -/
def FixedColorSource.reset (s : FixedColorSource) : FixedColorSource := s

/-- A sequence of `reset()` calls on a `FixedColorSource`. -/
def FixedColorSource.resets (s : FixedColorSource) : Nat → FixedColorSource
  | 0 => s
  | k + 1 => (s.resets k).reset

/-! ### RandomColorSource -/

/-- State of `RandomColorSource`: the palette `color_list` of shape
(max_images, 3), the selected `color_id`, the configured shape, and the
current constant array. -/
structure RandomColorSource where
  color_list : NpArr2
  color_id : Nat
  shape : Nat × Nat
  arr : NpArr3

/-- Model of `RandomColorSource.reset`: draw
`color_id = np.random.randint(0, len(color_list))`, rebuild
`arr = np.zeros((h, w, 3)); arr[:, :] = color_list[color_id]`. -/
def RandomColorSource.reset (s : RandomColorSource) (seed : Nat) : RandomColorSource :=
  let cid := randint 0 s.color_list.n seed
  { s with
    color_id := cid
    arr := ⟨s.shape.1, s.shape.2, 3, fun _ _ k => s.color_list.row cid k⟩ }

/-- Model of `RandomColorSource.__init__`: the palette
`np.random.randint(0, 256, size=(max_images, 3))` is the drawn `palette`
argument; `color_id`/`arr` start as placeholders (`None`) and `reset()` is
called before the constructor returns. -/
def RandomColorSource.init (shape : Nat × Nat) (max_images : Nat)
    (palette : Nat → Nat → Int) (seed : Nat) : RandomColorSource :=
  RandomColorSource.reset
    ⟨⟨max_images, palette⟩, 0, shape, ⟨0, 0, 0, fun _ _ _ => 0⟩⟩ seed

/-- Model of `RandomColorSource.get_image`. -/
def RandomColorSource.get_image (s : RandomColorSource) : NpArr3 := s.arr

/-- Model of `RandomColorSource.get_envindex`. -/
def RandomColorSource.get_envindex (s : RandomColorSource) : Nat := s.color_id

/-- A sequence of `reset()` calls with the given seeds. -/
def RandomColorSource.resets (s : RandomColorSource) : List Nat → RandomColorSource
  | [] => s
  | seed :: rest => (s.reset seed).resets rest

/-! ### NoiseSource -/

/-- State of `NoiseSource`: shape and strength. -/
structure NoiseSource where
  shape : Nat × Nat
  strength : Int

/-- Model of `NoiseSource.get_image`:
`np.random.randn(h, w, 3) * strength`; the fresh standard-normal draw is the
`noise` argument. -/
def NoiseSource.get_image (s : NoiseSource) (noise : Px) : NpArr3 :=
  ⟨s.shape.1, s.shape.2, 3, fun i j k => noise i j k * s.strength⟩

/-! ### RandomImageSource -/

/-- State of `RandomImageSource` after `__init__` completed: the grayscale
flag, the resolved `total_frames`, the configured shape, the file list, the
frame buffer `arr` and the cursor `_loc`. -/
structure RandomImageSource where
  grayscale : Bool
  total_frames : Nat
  shape : Nat × Nat
  filelist : List String
  arr : NpArr4
  loc : Nat

/-- Model of the line
`self.total_frames = self.total_frames if self.total_frames else len(self.filelist)`:
Python truthiness, so both `None` and `0` fall back to `len(filelist)`. -/
def effective_total_frames (tf : Option Nat) (filelist : List String) : Nat :=
  match tf with
  | none => filelist.length
  | some n => if n = 0 then filelist.length else n

/-- Loading of one frame in `RandomImageSource.build_arr`:
`fname = filelist[i % len(filelist)]`, `im = cv2.imread(fname, mode)` (with
`None` on decode failure, which makes the subsequent `cv2.resize` raise), then
`cv2.resize(im, (w, h))` written into the preallocated row. -/
def load_frame (imread : String → Bool → Option Px) (resize : Px → Nat → Nat → Px)
    (grayscale : Bool) (shape : Nat × Nat) (filelist : List String) (i : Nat) :
    Option Px :=
  (imread (filelist.getD (i % filelist.length) "") grayscale).map
    (fun im => resize im shape.2 shape.1)

/-- The loop `for i in range(total)` of `build_arr`, collecting the frames in
order; the first failed load aborts the whole build (the exception
propagates). -/
def build_frames (lf : Nat → Option Px) : Nat → Option (List Px)
  | 0 => some []
  | n + 1 =>
    match build_frames lf n, lf n with
    | some l, some f => some (l ++ [f])
    | _, _ => none

/-- Model of `RandomImageSource.build_arr`: allocate
`np.zeros((total, h, w) + ((3,) if not grayscale else (1,)))` and fill row `i`
with the decoded, resized frame `i`; any failure propagates as `none`. -/
def build_arr (imread : String → Bool → Option Px) (resize : Px → Nat → Nat → Px)
    (grayscale : Bool) (shape : Nat × Nat) (filelist : List String) (total : Nat) :
    Option NpArr4 :=
  (build_frames (load_frame imread resize grayscale shape filelist) total).map
    (fun l =>
      ⟨total, shape.1, shape.2, if grayscale then 1 else 3,
        fun i => l.getD i (fun _ _ _ => 0)⟩)

/-- Model of `RandomImageSource.__init__`: resolve `total_frames`, run
`build_arr` (failures abort construction, yielding `none`: no instance is
produced), then `reset()` draws `_loc = np.random.randint(0, total_frames)`. -/
def RandomImageSource.init (imread : String → Bool → Option Px)
    (resize : Px → Nat → Nat → Px) (shape : Nat × Nat) (filelist : List String)
    (tf : Option Nat) (grayscale : Bool) (seed : Nat) : Option RandomImageSource :=
  let total := effective_total_frames tf filelist
  (build_arr imread resize grayscale shape filelist total).map
    (fun a => ⟨grayscale, total, shape, filelist, a, randint 0 total seed⟩)

/-- Model of `RandomImageSource.reset`:
`self._loc = np.random.randint(0, self.total_frames)`. -/
def RandomImageSource.reset (s : RandomImageSource) (seed : Nat) : RandomImageSource :=
  { s with loc := randint 0 s.total_frames seed }

/-- A sequence of `reset()` calls with the given seeds. -/
def RandomImageSource.resets (s : RandomImageSource) : List Nat → RandomImageSource
  | [] => s
  | seed :: rest => (s.reset seed).resets rest

/-- Model of `RandomImageSource.get_image`: `return self.arr[self._loc]`. -/
def RandomImageSource.get_image (s : RandomImageSource) : NpArr3 :=
  ⟨s.arr.h, s.arr.w, s.arr.c, s.arr.frame s.loc⟩

/-! ### RandomVideoSource -/

/-- State of `RandomVideoSource`: the grayscale flag, configured shape, the
truncated pool `filelist`, `max_videos`, the `random_bg` flag, the loaded
video's pool index `_video_id`, the frame buffer `_current_vid` and the
cursor `_loc`. -/
structure RandomVideoSource where
  grayscale : Bool
  shape : Nat × Nat
  filelist : List String
  max_videos : Nat
  random_bg : Bool
  video_id : Nat
  current_vid : NpArr4
  loc : Nat

/-- Model of `RandomVideoSource.load_video`: look up `filelist[vid_id]`,
decode it with `skvideo.io.vread` (`vread fname grayscale`, `none` on any
decode failure), allocate `np.zeros((frames.shape[0], h, w) + (3 or 1,))` and
fill each row with the resized frame. -/
def load_video (vread : String → Bool → Option NpArr4) (resize : Px → Nat → Nat → Px)
    (grayscale : Bool) (shape : Nat × Nat) (filelist : List String) (vid_id : Nat) :
    Option NpArr4 :=
  match filelist.get? vid_id with
  | none => none
  | some fname =>
    (vread fname grayscale).map
      (fun frames =>
        ⟨frames.n, shape.1, shape.2, if grayscale then 1 else 3,
          fun i => resize (frames.frame i) shape.2 shape.1⟩)

/-- The `while True: try ... except: continue` loop of
`RandomVideoSource.reset`, with explicit fuel: attempt `j` draws
`_video_id = np.random.randint(0, len(filelist))` from seed `seeds j` and
tries `load_video`; any failure silently retries.  `none` means the loop has
not returned within `fuel` attempts — `(∀ fuel, ... = none)` is the loop
never returning. -/
def reset_loop (loadv : Nat → Option NpArr4) (poolLen : Nat) (seeds : Nat → Nat) :
    Nat → Option (Nat × NpArr4)
  | 0 => none
  | fuel + 1 =>
    match loadv (randint 0 poolLen (seeds 0)) with
    | some buf => some (randint 0 poolLen (seeds 0), buf)
    | none => reset_loop loadv poolLen (fun k => seeds (k + 1)) fuel

/-- Model of `RandomVideoSource.reset`: drop the previous buffer, loop until a
`load_video` succeeds, then draw
`_loc = np.random.randint(0, len(self._current_vid))`. -/
def RandomVideoSource.reset (vread : String → Bool → Option NpArr4)
    (resize : Px → Nat → Nat → Px) (s : RandomVideoSource) (seeds : Nat → Nat)
    (fuel : Nat) (locSeed : Nat) : Option RandomVideoSource :=
  (reset_loop (load_video vread resize s.grayscale s.shape s.filelist)
      s.filelist.length seeds fuel).map
    (fun r =>
      { s with
        video_id := r.1
        current_vid := r.2
        loc := randint 0 r.2.n locSeed })

/-- A sequence of `reset()` calls, each with its own seed stream, fuel and
cursor seed; `none` as soon as one of them does not return. -/
def RandomVideoSource.resets (vread : String → Bool → Option NpArr4)
    (resize : Px → Nat → Nat → Px) (s : RandomVideoSource) :
    List ((Nat → Nat) × Nat × Nat) → Option RandomVideoSource
  | [] => some s
  | p :: ps =>
    match RandomVideoSource.reset vread resize s p.1 p.2.1 p.2.2 with
    | none => none
    | some t => RandomVideoSource.resets vread resize t ps

/-- Model of `RandomVideoSource.__init__`: `random.shuffle(self.filelist)`
mutates the caller's list in place (`shuffle` is the permutation the global
RNG produced), then `self.filelist = self.filelist[:max_videos]` takes a
truncated copy, and `reset()` performs the initial load.  The second
component is the caller's list as the constructor left it. -/
def RandomVideoSource.init (vread : String → Bool → Option NpArr4)
    (resize : Px → Nat → Nat → Px) (shuffle : List String → List String)
    (shape : Nat × Nat) (filelist : List String) (random_bg : Bool)
    (max_videos : Nat) (grayscale : Bool) (seeds : Nat → Nat) (fuel : Nat)
    (locSeed : Nat) : Option RandomVideoSource × List String :=
  let shuffled := shuffle filelist
  let pool := shuffled.take max_videos
  let s0 : RandomVideoSource :=
    ⟨grayscale, shape, pool, max_videos, random_bg, 0,
      ⟨0, 0, 0, 0, fun _ _ _ _ => 0⟩, 0⟩
  (RandomVideoSource.reset vread resize s0 seeds fuel locSeed, shuffled)

/-- Model of `RandomVideoSource.get_envindex`. -/
def RandomVideoSource.get_envindex (s : RandomVideoSource) : Nat := s.video_id

/-- Model of `RandomVideoSource.get_image`: in random-background mode redraw
`_loc = np.random.randint(0, len(self._current_vid))`, otherwise
`_loc += 1`; serve `self._current_vid[self._loc % len(self._current_vid)]`.
Returns the image and the updated state. -/
def RandomVideoSource.get_image (s : RandomVideoSource) (seed : Nat) :
    NpArr3 × RandomVideoSource :=
  if s.random_bg then
    let l := randint 0 s.current_vid.n seed
    (⟨s.current_vid.h, s.current_vid.w, s.current_vid.c,
        s.current_vid.frame (l % s.current_vid.n)⟩,
      { s with loc := l })
  else
    let l := s.loc + 1
    (⟨s.current_vid.h, s.current_vid.w, s.current_vid.c,
        s.current_vid.frame (l % s.current_vid.n)⟩,
      { s with loc := l })

/-- A sequence of `get_image()` calls, seed `seedf k` for the k-th call. -/
def RandomVideoSource.calls (s : RandomVideoSource) (seedf : Nat → Nat) :
    Nat → RandomVideoSource
  | 0 => s
  | k + 1 => ((s.calls seedf k).get_image (seedf k)).2

/-- The image returned by the (k+1)-th consecutive `get_image()` call. -/
def RandomVideoSource.callImage (s : RandomVideoSource) (seedf : Nat → Nat)
    (k : Nat) : NpArr3 :=
  ((s.calls seedf k).get_image (seedf k)).1

/-- The frame-buffer index served by the (k+1)-th consecutive call in
sequential mode, starting from cursor `s.loc`. -/
def RandomVideoSource.servedIndex (s : RandomVideoSource) (k : Nat) : Nat :=
  (s.loc + k + 1) % s.current_vid.n

/-! ### Helper lemmas -/

theorem build_frames_length (lf : Nat → Option Px) (n : Nat) :
    ∀ l, build_frames lf n = some l → l.length = n := by
  induction n with
  | zero =>
    intro l h
    simp [build_frames] at h
    simp [← h]
  | succ n ih =>
    intro l h
    unfold build_frames at h
    cases hb : build_frames lf n <;> rw [hb] at h
    · exact absurd h (by simp)
    case some l0 =>
      cases hf : lf n <;> rw [hf] at h
      · exact absurd h (by simp)
      case some f =>
        simp at h
        subst h
        simp [ih l0 hb]

theorem build_frames_get (lf : Nat → Option Px) (n : Nat) :
    ∀ l, build_frames lf n = some l → ∀ i, i < n →
      ∃ f, lf i = some f ∧ l.getD i (fun _ _ _ => 0) = f := by
  induction n with
  | zero =>
    intro l _ i hi
    omega
  | succ n ih =>
    intro l h i hi
    unfold build_frames at h
    cases hb : build_frames lf n <;> rw [hb] at h
    · exact absurd h (by simp)
    case some l0 =>
      cases hf : lf n <;> rw [hf] at h
      · exact absurd h (by simp)
      case some f =>
        simp at h
        subst h
        have hlen := build_frames_length lf n l0 hb
        rcases Nat.lt_or_ge i n with hin | hin
        · obtain ⟨g, hg, hgd⟩ := ih l0 hb i hin
          exact ⟨g, hg, by rw [List.getD_append _ _ _ _ (by omega)]; exact hgd⟩
        · have hieq : i = n := by omega
          subst hieq
          refine ⟨f, hf, ?_⟩
          rw [List.getD_append_right _ _ _ _ (by omega)]
          simp [hlen]

theorem build_frames_none (lf : Nat → Option Px) (n i : Nat) (hi : i < n)
    (hf : lf i = none) : build_frames lf n = none := by
  induction n with
  | zero => omega
  | succ n ih =>
    unfold build_frames
    rcases Nat.lt_or_ge i n with hin | hin
    · rw [ih hin]
    · have hieq : i = n := by omega
      subst hieq
      rw [hf]
      cases build_frames lf i <;> rfl

/-! ### Claim theorems -/

/-- C5: for every image and configured color, `get_mask(img)` is the boolean
array that is true at `[i, j]` (per channel `k`) iff `img[i, j, k]` equals the
configured color's channel `k` (scalar grayscale color: constant over `k`),
and the mask's spatial shape matches the image's. -/
theorem C5_get_mask_spec (m : BackgroundMatting) (img : NpArr3) :
    (m.get_mask img).h = img.h ∧ (m.get_mask img).w = img.w ∧
    ∀ i j k, (m.get_mask img).px i j k = true ↔ img.px i j k = m.color k := by
  refine ⟨rfl, rfl, fun i j k => ?_⟩
  simp [BackgroundMatting.get_mask]

/-- C10: passing `total_frames=0` to `RandomImageSource` is the same as
passing no `total_frames` at all — the Python default test is truthiness, so
`0` falls back to `len(filelist)` and an empty buffer is never built from
`total_frames=0`. -/
theorem C10_total_frames_zero_is_default (imread : String → Bool → Option Px)
    (resize : Px → Nat → Nat → Px) (shape : Nat × Nat) (filelist : List String)
    (grayscale : Bool) (seed : Nat) :
    RandomImageSource.init imread resize shape filelist (some 0) grayscale seed =
      RandomImageSource.init imread resize shape filelist none grayscale seed := rfl

/-- C7: a decode failure on any frame of the initial buffer build makes
`RandomImageSource` construction fail outright — no instance (partial or
degraded) is produced. -/
theorem C7_decode_failure_aborts_construction (imread : String → Bool → Option Px)
    (resize : Px → Nat → Nat → Px) (shape : Nat × Nat) (filelist : List String)
    (tf : Option Nat) (grayscale : Bool) (seed : Nat) (i : Nat)
    (hi : i < effective_total_frames tf filelist)
    (hfail : imread (filelist.getD (i % filelist.length) "") grayscale = none) :
    RandomImageSource.init imread resize shape filelist tf grayscale seed = none := by
  have hnone : build_frames (load_frame imread resize grayscale shape filelist)
      (effective_total_frames tf filelist) = none :=
    build_frames_none _ _ i hi (by unfold load_frame; rw [hfail]; rfl)
  simp only [RandomImageSource.init, build_arr, Option.map_map, hnone, Option.map_none']

/-- Decoder that fails exactly on the file named "bad". -/
def decFail : String → Bool → Option Px :=
  fun f _ => if f = "bad" then none else some (fun _ _ _ => 0)

/-- Identity resize collaborator, for concrete instances. -/
def resId : Px → Nat → Nat → Px := fun p _ _ => p

theorem C7_decode_failure_aborts_construction_witness :
    RandomImageSource.init decFail resId (2, 2) ["good", "bad"] none false 0 = none :=
  C7_decode_failure_aborts_construction decFail resId (2, 2) ["good", "bad"]
    none false 0 1 (by decide) rfl

/-- C4: a successful `RandomImageSource` construction resolves `total_frames`
(defaulting to `len(filelist)` when not given) and builds a buffer whose frame
`i`, for every `i < total_frames`, is the decoded and resized content of
`filelist[i mod len(filelist)]` — with 3 files and `total_frames=5` the frames
come from files `[0, 1, 2, 0, 1]`. -/
theorem C4_buffer_cycles_filelist (imread : String → Bool → Option Px)
    (resize : Px → Nat → Nat → Px) (shape : Nat × Nat) (filelist : List String)
    (tf : Option Nat) (grayscale : Bool) (seed : Nat) (s : RandomImageSource)
    (h : RandomImageSource.init imread resize shape filelist tf grayscale seed = some s) :
    s.total_frames = effective_total_frames tf filelist ∧
    (tf = none → s.total_frames = filelist.length) ∧
    (filelist.length = 3 → tf = some 5 →
      (List.range s.total_frames).map (fun i => i % filelist.length) = [0, 1, 2, 0, 1]) ∧
    ∀ i, i < s.total_frames →
      ∃ im, imread (filelist.getD (i % filelist.length) "") grayscale = some im ∧
        s.arr.frame i = resize im shape.2 shape.1 := by
  simp only [RandomImageSource.init, build_arr, Option.map_map, Option.map_eq_some'] at h
  obtain ⟨l, hl, hs⟩ := h
  subst hs
  refine ⟨rfl, fun htf => by simp [htf, effective_total_frames], ?_, ?_⟩
  · intro hlen htf
    have h5 : effective_total_frames tf filelist = 5 := by
      simp [htf, effective_total_frames]
    show (List.range (effective_total_frames tf filelist)).map
      (fun i => i % filelist.length) = _
    rw [h5, hlen]
    decide
  · intro i hi
    have hi' : i < effective_total_frames tf filelist := hi
    obtain ⟨f, hf, hfd⟩ := build_frames_get _ _ l hl i hi'
    simp only [load_frame, Option.map_eq_some'] at hf
    obtain ⟨im, him, hres⟩ := hf
    refine ⟨im, him, ?_⟩
    show l.getD i (fun _ _ _ => 0) = resize im shape.2 shape.1
    rw [hfd, ← hres]

/-- Decoder mapping files "a", "b", "c" to the constant images 0, 1, 2. -/
def decABC : String → Bool → Option Px :=
  fun f _ =>
    if f = "a" then some (fun _ _ _ => 0)
    else if f = "b" then some (fun _ _ _ => 1)
    else if f = "c" then some (fun _ _ _ => 2)
    else none

/-- A concrete successfully constructed `RandomImageSource` over 3 files with
`total_frames=5`. -/
def sC4 : RandomImageSource :=
  (RandomImageSource.init decABC resId (2, 2) ["a", "b", "c"] (some 5) false 0).get
    (by decide)

theorem C4_buffer_cycles_filelist_witness :
    sC4.total_frames = 5 ∧
    (List.range sC4.total_frames).map (fun i => i % 3) = [0, 1, 2, 0, 1] ∧
    ∃ im, decABC "a" false = some im ∧ sC4.arr.frame 3 = resId im 2 2 :=
  ⟨(C4_buffer_cycles_filelist decABC resId (2, 2) ["a", "b", "c"] (some 5) false 0
      sC4 (Option.some_get (by decide)).symm).1,
    (C4_buffer_cycles_filelist decABC resId (2, 2) ["a", "b", "c"] (some 5) false 0
      sC4 (Option.some_get (by decide)).symm).2.2.1 rfl rfl,
    (C4_buffer_cycles_filelist decABC resId (2, 2) ["a", "b", "c"] (some 5) false 0
      sC4 (Option.some_get (by decide)).symm).2.2.2 3 (by decide)⟩

/-- Invariant of `RandomColorSource` after a reset: the selected palette index
is in range and the current array is the selected constant color. -/
def RandomColorSource.Good (s : RandomColorSource) : Prop :=
  s.color_id < s.color_list.n ∧
  ∀ i j k, (s.get_image).px i j k = s.color_list.row s.color_id k

theorem RandomColorSource.reset_good (s : RandomColorSource) (seed : Nat)
    (hm : 0 < s.color_list.n) : (s.reset seed).Good :=
  ⟨randint_zero_lt _ seed hm, fun _ _ _ => rfl⟩

theorem RandomColorSource.resets_good (seeds : List Nat) :
    ∀ s : RandomColorSource, s.Good →
      (s.resets seeds).Good ∧ (s.resets seeds).color_list = s.color_list := by
  induction seeds with
  | nil => exact fun s hs => ⟨hs, rfl⟩
  | cons seed rest ih =>
    intro s hs
    have hm : 0 < s.color_list.n := Nat.lt_of_le_of_lt (Nat.zero_le _) hs.1
    have := ih (s.reset seed) (RandomColorSource.reset_good s seed hm)
    exact ⟨this.1, this.2.trans rfl⟩

/-- C6: after every `reset()` (including the one run by the constructor and
any later sequence), `get_envindex()` is in `[0, max_images)` and every pixel
of `get_image()` equals `color_list[get_envindex()]`. -/
theorem C6_randomcolor_env_and_constant_image (shape : Nat × Nat)
    (max_images : Nat) (palette : Nat → Nat → Int) (seed : Nat)
    (seeds : List Nat) (hm : 0 < max_images) :
    ((RandomColorSource.init shape max_images palette seed).resets seeds).get_envindex
        < max_images ∧
    ∀ i j k,
      ((((RandomColorSource.init shape max_images palette seed).resets
        seeds).get_image).px i j k) =
      ((RandomColorSource.init shape max_images palette seed).resets
        seeds).color_list.row
        (((RandomColorSource.init shape max_images palette seed).resets
          seeds).get_envindex) k := by
  have h0 : (RandomColorSource.init shape max_images palette seed).Good :=
    RandomColorSource.reset_good
      ⟨⟨max_images, palette⟩, 0, shape, ⟨0, 0, 0, fun _ _ _ => 0⟩⟩ seed hm
  have hres := RandomColorSource.resets_good seeds _ h0
  have hn : ((RandomColorSource.init shape max_images palette seed).resets
      seeds).color_list.n = max_images := by
    rw [hres.2]; rfl
  exact ⟨hres.1.1.trans_le hn.le, hres.1.2⟩

/-- A concrete palette for instances. -/
def palW : Nat → Nat → Int := fun i k => Int.ofNat (10 * i + k)

theorem C6_randomcolor_env_and_constant_image_witness :
    ((RandomColorSource.init (2, 3) 2 palW 5).resets [7]).get_envindex < 2 ∧
    ((((RandomColorSource.init (2, 3) 2 palW 5).resets [7]).get_image).px 0 1 2) =
      ((RandomColorSource.init (2, 3) 2 palW 5).resets [7]).color_list.row
        (((RandomColorSource.init (2, 3) 2 palW 5).resets [7]).get_envindex) 2 :=
  ⟨(C6_randomcolor_env_and_constant_image (2, 3) 2 palW 5 [7] (by decide)).1,
    (C6_randomcolor_env_and_constant_image (2, 3) 2 palW 5 [7] (by decide)).2 0 1 2⟩

theorem RandomVideoSource.calls_seq (s : RandomVideoSource) (seedf : Nat → Nat)
    (hrb : s.random_bg = false) :
    ∀ k, (s.calls seedf k).random_bg = false ∧
      (s.calls seedf k).current_vid = s.current_vid ∧
      (s.calls seedf k).loc = s.loc + k := by
  intro k
  induction k with
  | zero => exact ⟨hrb, rfl, rfl⟩
  | succ k ih =>
    have hstep : s.calls seedf (k + 1) =
        { s.calls seedf k with loc := (s.calls seedf k).loc + 1 } := by
      show ((s.calls seedf k).get_image (seedf k)).2 = _
      unfold RandomVideoSource.get_image
      rw [if_neg (by simp [ih.1])]
    rw [hstep]
    exact ⟨ih.1, ih.2.1, by simp [ih.2.2]; omega⟩

/-- C3: in sequential mode (`random_bg` false), the (k+1)-th consecutive
`get_image()` call serves frame `(loc + k + 1) mod n`: the served index
advances by exactly 1 modulo the buffer length `n` on each call, and the
image sequence repeats with period `n`. -/
theorem C3_sequential_cursor_advances (s : RandomVideoSource) (seedf : Nat → Nat)
    (hrb : s.random_bg = false) :
    (∀ k, s.callImage seedf k =
      ⟨s.current_vid.h, s.current_vid.w, s.current_vid.c,
        s.current_vid.frame (s.servedIndex k)⟩) ∧
    (∀ k, s.servedIndex (k + 1) = (s.servedIndex k + 1) % s.current_vid.n) ∧
    (∀ k, s.servedIndex (k + s.current_vid.n) = s.servedIndex k) ∧
    (∀ k, s.callImage seedf (k + s.current_vid.n) = s.callImage seedf k) := by
  have himg : ∀ k, s.callImage seedf k =
      ⟨s.current_vid.h, s.current_vid.w, s.current_vid.c,
        s.current_vid.frame (s.servedIndex k)⟩ := by
    intro k
    have hc := RandomVideoSource.calls_seq s seedf hrb k
    show ((s.calls seedf k).get_image (seedf k)).1 = _
    unfold RandomVideoSource.get_image
    rw [if_neg (by simp [hc.1])]
    show (⟨(s.calls seedf k).current_vid.h, (s.calls seedf k).current_vid.w,
      (s.calls seedf k).current_vid.c,
      (s.calls seedf k).current_vid.frame
        (((s.calls seedf k).loc + 1) % (s.calls seedf k).current_vid.n)⟩ : NpArr3) = _
    rw [hc.2.1, hc.2.2]
    rfl
  have hper : ∀ k, s.servedIndex (k + s.current_vid.n) = s.servedIndex k := by
    intro k
    unfold RandomVideoSource.servedIndex
    have harg : s.loc + (k + s.current_vid.n) + 1 =
        s.loc + k + 1 + s.current_vid.n := by omega
    rw [harg, Nat.add_mod_right]
  refine ⟨himg, ?_, hper, ?_⟩
  · intro k
    unfold RandomVideoSource.servedIndex
    rw [Nat.mod_add_mod]
    congr 1
  · intro k
    rw [himg, himg, hper]

/-- A concrete 3-frame buffer. -/
def bufW : NpArr4 := ⟨3, 2, 2, 3, fun t => fun _ _ _ => Int.ofNat t⟩

/-- A concrete sequential-mode `RandomVideoSource` state. -/
def sVid : RandomVideoSource := ⟨false, (2, 2), ["v"], 20, false, 0, bufW, 0⟩

theorem C3_sequential_cursor_advances_witness :
    sVid.servedIndex 1 = (sVid.servedIndex 0 + 1) % sVid.current_vid.n ∧
    sVid.callImage (fun _ => 0) 3 = sVid.callImage (fun _ => 0) 0 ∧
    sVid.callImage (fun _ => 0) 0 =
      ⟨sVid.current_vid.h, sVid.current_vid.w, sVid.current_vid.c,
        sVid.current_vid.frame (sVid.servedIndex 0)⟩ :=
  ⟨(C3_sequential_cursor_advances sVid (fun _ => 0) rfl).2.1 0,
    (C3_sequential_cursor_advances sVid (fun _ => 0) rfl).2.2.2 0,
    (C3_sequential_cursor_advances sVid (fun _ => 0) rfl).1 0⟩

theorem reset_loop_success (loadv : Nat → Option NpArr4) (poolLen : Nat) :
    ∀ (fuel : Nat) (seeds : Nat → Nat) (vid : Nat) (buf : NpArr4),
      reset_loop loadv poolLen seeds fuel = some (vid, buf) →
        loadv vid = some buf := by
  intro fuel
  induction fuel with
  | zero =>
    intro seeds vid buf h
    simp [reset_loop] at h
  | succ fuel ih =>
    intro seeds vid buf h
    unfold reset_loop at h
    cases hl : loadv (randint 0 poolLen (seeds 0)) <;> rw [hl] at h
    · exact ih _ vid buf h
    case some b =>
      simp at h
      rw [← h.1, ← h.2]
      exact hl

theorem reset_loop_all_fail (loadv : Nat → Option NpArr4) (poolLen : Nat)
    (hall : ∀ v, loadv v = none) :
    ∀ (fuel : Nat) (seeds : Nat → Nat),
      reset_loop loadv poolLen seeds fuel = none := by
  intro fuel
  induction fuel with
  | zero => intro seeds; rfl
  | succ fuel ih =>
    intro seeds
    unfold reset_loop
    rw [hall]
    exact ih _

theorem reset_loop_progress (loadv : Nat → Option NpArr4) (poolLen : Nat) :
    ∀ (fuel : Nat) (seeds : Nat → Nat) (k : Nat), k < fuel →
      (loadv (randint 0 poolLen (seeds k))).isSome →
        (reset_loop loadv poolLen seeds fuel).isSome := by
  intro fuel
  induction fuel with
  | zero => omega
  | succ fuel ih =>
    intro seeds k hk hsome
    unfold reset_loop
    cases hl : loadv (randint 0 poolLen (seeds 0))
    · cases k with
      | zero => rw [hl] at hsome; simp at hsome
      | succ k => exact ih (fun j => seeds (j + 1)) k (by omega) hsome
    · rfl

/-- C2: `reset()` on `RandomVideoSource` installs a buffer only from a
successful `load_video` of the drawn index; on any load failure it silently
redraws and retries with no bound, so when every pool index is unloadable no
amount of fuel makes the loop return (the call never returns), while a
loadable draw anywhere within the fuel makes the call return. -/
theorem C2_reset_retries_until_success (vread : String → Bool → Option NpArr4)
    (resize : Px → Nat → Nat → Px) (s : RandomVideoSource) :
    (∀ (seeds : Nat → Nat) (fuel locSeed : Nat) (s' : RandomVideoSource),
      RandomVideoSource.reset vread resize s seeds fuel locSeed = some s' →
        load_video vread resize s.grayscale s.shape s.filelist s'.video_id =
          some s'.current_vid) ∧
    ((∀ vid, load_video vread resize s.grayscale s.shape s.filelist vid = none) →
      ∀ (seeds : Nat → Nat) (fuel locSeed : Nat),
        RandomVideoSource.reset vread resize s seeds fuel locSeed = none) ∧
    (∀ (seeds : Nat → Nat) (fuel locSeed k : Nat), k < fuel →
      (load_video vread resize s.grayscale s.shape s.filelist
          (randint 0 s.filelist.length (seeds k))).isSome →
        (RandomVideoSource.reset vread resize s seeds fuel locSeed).isSome) := by
  refine ⟨?_, ?_, ?_⟩
  · intro seeds fuel locSeed s' h
    unfold RandomVideoSource.reset at h
    cases hr : reset_loop (load_video vread resize s.grayscale s.shape s.filelist)
        s.filelist.length seeds fuel <;> rw [hr] at h
    · exact absurd h (by simp)
    case some r =>
      simp at h
      have hload := reset_loop_success _ _ fuel seeds r.1 r.2 hr
      rw [← h]
      exact hload
  · intro hall seeds fuel locSeed
    unfold RandomVideoSource.reset
    rw [reset_loop_all_fail _ _ hall fuel seeds]
    rfl
  · intro seeds fuel locSeed k hk hsome
    unfold RandomVideoSource.reset
    have := reset_loop_progress
      (load_video vread resize s.grayscale s.shape s.filelist)
      s.filelist.length fuel seeds k hk hsome
    cases hr : reset_loop (load_video vread resize s.grayscale s.shape s.filelist)
        s.filelist.length seeds fuel
    · rw [hr] at this; simp at this
    · rfl

/-- Video decoder that fails exactly on the file named "corrupt". -/
def vreadW : String → Bool → Option NpArr4 :=
  fun f _ => if f = "corrupt" then none else some ⟨2, 4, 4, 3, fun _ _ _ _ => 1⟩

/-- Video decoder that fails on every file. -/
def vreadNone : String → Bool → Option NpArr4 := fun _ _ => none

/-- A concrete `RandomVideoSource` state whose pool has one corrupt and one
loadable video. -/
def sPool : RandomVideoSource := ⟨false, (2, 2), ["corrupt", "ok"], 20, false, 0, bufW, 0⟩

theorem C2_reset_retries_until_success_witness :
    (RandomVideoSource.reset vreadW resId sPool (fun k => k) 2 0).isSome = true ∧
    RandomVideoSource.reset vreadNone resId sPool (fun k => k) 5 0 = none :=
  ⟨(C2_reset_retries_until_success vreadW resId sPool).2.2 (fun k => k) 2 0 1
      (by decide) (by decide),
    (C2_reset_retries_until_success vreadNone resId sPool).2.1
      (fun vid => by
        unfold load_video
        cases hg : sPool.filelist.get? vid <;> rfl)
      (fun k => k) 5 0⟩

theorem load_video_filename (vread : String → Bool → Option NpArr4)
    (resize : Px → Nat → Nat → Px) (g : Bool) (sh : Nat × Nat)
    (fl : List String) (vid : Nat) (buf : NpArr4)
    (h : load_video vread resize g sh fl vid = some buf) :
    ∃ fname, fl.get? vid = some fname ∧ fname ∈ fl := by
  unfold load_video at h
  cases hg : fl.get? vid <;> rw [hg] at h
  · exact absurd h (by simp)
  case some fname => exact ⟨fname, rfl, List.get?_mem hg⟩

theorem RandomVideoSource.reset_fields (vread : String → Bool → Option NpArr4)
    (resize : Px → Nat → Nat → Px) (s : RandomVideoSource) (seeds : Nat → Nat)
    (fuel locSeed : Nat) (s' : RandomVideoSource)
    (h : RandomVideoSource.reset vread resize s seeds fuel locSeed = some s') :
    s'.filelist = s.filelist ∧ s'.max_videos = s.max_videos ∧
    s'.shape = s.shape ∧ s'.grayscale = s.grayscale ∧ s'.random_bg = s.random_bg := by
  unfold RandomVideoSource.reset at h
  cases hr : reset_loop (load_video vread resize s.grayscale s.shape s.filelist)
      s.filelist.length seeds fuel <;> rw [hr] at h
  · exact absurd h (by simp)
  case some r =>
    simp at h
    rw [← h]
    exact ⟨rfl, rfl, rfl, rfl, rfl⟩

theorem RandomVideoSource.reset_loaded (vread : String → Bool → Option NpArr4)
    (resize : Px → Nat → Nat → Px) (s : RandomVideoSource) (seeds : Nat → Nat)
    (fuel locSeed : Nat) (s' : RandomVideoSource)
    (h : RandomVideoSource.reset vread resize s seeds fuel locSeed = some s') :
    load_video vread resize s.grayscale s.shape s.filelist s'.video_id =
      some s'.current_vid := by
  unfold RandomVideoSource.reset at h
  cases hr : reset_loop (load_video vread resize s.grayscale s.shape s.filelist)
      s.filelist.length seeds fuel <;> rw [hr] at h
  · exact absurd h (by simp)
  case some r =>
    simp at h
    have hload := reset_loop_success _ _ fuel seeds r.1 r.2 hr
    rw [← h]
    exact hload

/-- C8: the video pool is fixed at construction to the first `max_videos`
entries of the shuffled list (so `min max_videos len` entries — exactly 2 for
`max_videos=2` over 5 videos), and every successful `reset()` keeps the pool
unchanged and loads exactly one entry of it, so only pool entries are ever
loaded across any number of resets. -/
theorem C8_only_pool_videos_loaded (vread : String → Bool → Option NpArr4)
    (resize : Px → Nat → Nat → Px) (shuffle : List String → List String)
    (shape : Nat × Nat) (filelist : List String) (random_bg : Bool)
    (max_videos : Nat) (grayscale : Bool) (seeds : Nat → Nat) (fuel locSeed : Nat)
    (hperm : ∀ l, (shuffle l).Perm l) :
    (∀ s, (RandomVideoSource.init vread resize shuffle shape filelist random_bg
        max_videos grayscale seeds fuel locSeed).1 = some s →
      s.filelist = (shuffle filelist).take max_videos ∧
      s.filelist.length = min max_videos filelist.length ∧
      (filelist.length = 5 → max_videos = 2 → s.filelist.length = 2)) ∧
    (∀ (t : RandomVideoSource) (seeds' : Nat → Nat) (fuel' ls' : Nat)
        (t' : RandomVideoSource),
      RandomVideoSource.reset vread resize t seeds' fuel' ls' = some t' →
        t'.filelist = t.filelist ∧
        ∃ fname, t.filelist.get? t'.video_id = some fname ∧ fname ∈ t.filelist) := by
  constructor
  · intro s h
    have h' : RandomVideoSource.reset vread resize
        ⟨grayscale, shape, (shuffle filelist).take max_videos, max_videos,
          random_bg, 0, ⟨0, 0, 0, 0, fun _ _ _ _ => 0⟩, 0⟩
        seeds fuel locSeed = some s := h
    have hf := (RandomVideoSource.reset_fields _ _ _ _ _ _ _ h').1
    have hlen : s.filelist.length = min max_videos filelist.length := by
      rw [hf]
      show ((shuffle filelist).take max_videos).length = _
      rw [List.length_take, (hperm filelist).length_eq]
    refine ⟨hf, hlen, fun h5 h2 => ?_⟩
    rw [hlen, h5, h2]
    rfl
  · intro t seeds' fuel' ls' t' h
    have hf := RandomVideoSource.reset_fields _ _ _ _ _ _ _ h
    have hl := RandomVideoSource.reset_loaded _ _ _ _ _ _ _ h
    obtain ⟨fname, hget, hmem⟩ := load_video_filename _ _ _ _ _ _ _ hl
    exact ⟨hf.1, fname, hget, hmem⟩

/-- A 5-video file list. -/
def vid5 : List String := ["v1", "v2", "v3", "v4", "v5"]

/-- A concrete `RandomVideoSource` built from `vid5` with `max_videos = 2`. -/
def sV8 : RandomVideoSource :=
  ((RandomVideoSource.init vreadW resId id (2, 2) vid5 false 2 false
    (fun _ => 0) 1 0).1).get (by decide)

theorem C8_only_pool_videos_loaded_witness :
    sV8.filelist = (id vid5).take 2 ∧ sV8.filelist.length = 2 :=
  ⟨((C8_only_pool_videos_loaded vreadW resId id (2, 2) vid5 false 2 false
      (fun _ => 0) 1 0 (fun l => List.Perm.refl l)).1 sV8
      (Option.some_get (by decide)).symm).1,
    ((C8_only_pool_videos_loaded vreadW resId id (2, 2) vid5 false 2 false
      (fun _ => 0) 1 0 (fun l => List.Perm.refl l)).1 sV8
      (Option.some_get (by decide)).symm).2.2 rfl rfl⟩

/-- C9: `RandomVideoSource` construction returns the caller's list shuffled in
place — a permutation of the original, of unchanged length (not truncated) —
while the source keeps only the truncated prefix of that shuffled list. -/
theorem C9_construction_shuffles_caller_list (vread : String → Bool → Option NpArr4)
    (resize : Px → Nat → Nat → Px) (shuffle : List String → List String)
    (shape : Nat × Nat) (filelist : List String) (random_bg : Bool)
    (max_videos : Nat) (grayscale : Bool) (seeds : Nat → Nat) (fuel locSeed : Nat)
    (hperm : ∀ l, (shuffle l).Perm l) :
    (RandomVideoSource.init vread resize shuffle shape filelist random_bg
        max_videos grayscale seeds fuel locSeed).2 = shuffle filelist ∧
    ((RandomVideoSource.init vread resize shuffle shape filelist random_bg
        max_videos grayscale seeds fuel locSeed).2).Perm filelist ∧
    ((RandomVideoSource.init vread resize shuffle shape filelist random_bg
        max_videos grayscale seeds fuel locSeed).2).length = filelist.length ∧
    ∀ s, (RandomVideoSource.init vread resize shuffle shape filelist random_bg
        max_videos grayscale seeds fuel locSeed).1 = some s →
      s.filelist = ((RandomVideoSource.init vread resize shuffle shape filelist
        random_bg max_videos grayscale seeds fuel locSeed).2).take max_videos := by
  refine ⟨rfl, hperm filelist, (hperm filelist).length_eq, ?_⟩
  intro s h
  have h' : RandomVideoSource.reset vread resize
      ⟨grayscale, shape, (shuffle filelist).take max_videos, max_videos,
        random_bg, 0, ⟨0, 0, 0, 0, fun _ _ _ _ => 0⟩, 0⟩
      seeds fuel locSeed = some s := h
  exact (RandomVideoSource.reset_fields _ _ _ _ _ _ _ h').1

theorem C9_construction_shuffles_caller_list_witness :
    (RandomVideoSource.init vreadW resId List.reverse (2, 2) ["a", "b"] false 20
        false (fun _ => 0) 1 0).2 = List.reverse ["a", "b"] ∧
    ((RandomVideoSource.init vreadW resId List.reverse (2, 2) ["a", "b"] false 20
        false (fun _ => 0) 1 0).2).Perm ["a", "b"] :=
  ⟨(C9_construction_shuffles_caller_list vreadW resId List.reverse (2, 2)
      ["a", "b"] false 20 false (fun _ => 0) 1 0 (fun l => l.reverse_perm)).1,
    (C9_construction_shuffles_caller_list vreadW resId List.reverse (2, 2)
      ["a", "b"] false 20 false (fun _ => 0) 1 0 (fun l => l.reverse_perm)).2.1⟩

theorem FixedColorSource.resets_eq (s : FixedColorSource) :
    ∀ k, s.resets k = s := by
  intro k
  induction k with
  | zero => rfl
  | succ k ih => show (s.resets k).reset = s; rw [ih]; rfl

theorem RandomColorSource.resets_shape (seeds : List Nat) :
    ∀ s : RandomColorSource,
      s.arr.h = s.shape.1 ∧ s.arr.w = s.shape.2 ∧ s.arr.c = 3 →
      (s.resets seeds).arr.h = s.shape.1 ∧ (s.resets seeds).arr.w = s.shape.2 ∧
        (s.resets seeds).arr.c = 3 := by
  induction seeds with
  | nil => exact fun s hs => hs
  | cons seed rest ih => exact fun s _ => ih (s.reset seed) ⟨rfl, rfl, rfl⟩

theorem RandomImageSource.resets_arr (seeds : List Nat) :
    ∀ s : RandomImageSource, (s.resets seeds).arr = s.arr := by
  induction seeds with
  | nil => exact fun s => rfl
  | cons seed rest ih => exact fun s => ih (s.reset seed)

theorem load_video_shape (vread : String → Bool → Option NpArr4)
    (resize : Px → Nat → Nat → Px) (g : Bool) (sh : Nat × Nat)
    (fl : List String) (vid : Nat) (buf : NpArr4)
    (h : load_video vread resize g sh fl vid = some buf) :
    buf.h = sh.1 ∧ buf.w = sh.2 ∧ buf.c = (if g then 1 else 3) := by
  unfold load_video at h
  cases hg : fl.get? vid <;> rw [hg] at h
  · exact absurd h (by simp)
  case some fname =>
    simp only [Option.map_eq_some'] at h
    obtain ⟨frames, _, hbuf⟩ := h
    rw [← hbuf]
    exact ⟨rfl, rfl, rfl⟩

/-- Shape invariant of a loaded `RandomVideoSource`: the frame buffer's
spatial shape is the configured one and its channel count matches the
grayscale flag. -/
def RandomVideoSource.GoodShape (s : RandomVideoSource) : Prop :=
  s.current_vid.h = s.shape.1 ∧ s.current_vid.w = s.shape.2 ∧
  s.current_vid.c = (if s.grayscale then 1 else 3)

theorem RandomVideoSource.reset_goodshape (vread : String → Bool → Option NpArr4)
    (resize : Px → Nat → Nat → Px) (s : RandomVideoSource) (seeds : Nat → Nat)
    (fuel locSeed : Nat) (s' : RandomVideoSource)
    (h : RandomVideoSource.reset vread resize s seeds fuel locSeed = some s') :
    s'.GoodShape := by
  have hl := RandomVideoSource.reset_loaded _ _ _ _ _ _ _ h
  have hs := load_video_shape _ _ _ _ _ _ _ hl
  have hf := RandomVideoSource.reset_fields _ _ _ _ _ _ _ h
  exact ⟨by rw [hf.2.2.1]; exact hs.1, by rw [hf.2.2.1]; exact hs.2.1,
    by rw [hf.2.2.2.1]; exact hs.2.2⟩

theorem RandomVideoSource.resets_goodshape (vread : String → Bool → Option NpArr4)
    (resize : Px → Nat → Nat → Px) (ps : List ((Nat → Nat) × Nat × Nat)) :
    ∀ s t : RandomVideoSource,
      RandomVideoSource.resets vread resize s ps = some t → s.GoodShape →
        t.GoodShape ∧ t.shape = s.shape ∧ t.grayscale = s.grayscale := by
  induction ps with
  | nil =>
    intro s t h hg
    simp [RandomVideoSource.resets] at h
    rw [← h]
    exact ⟨hg, rfl, rfl⟩
  | cons p ps ih =>
    intro s t h hg
    unfold RandomVideoSource.resets at h
    cases hr : RandomVideoSource.reset vread resize s p.1 p.2.1 p.2.2 <;> rw [hr] at h
    · exact absurd h (by simp)
    case some u =>
      have hgu := RandomVideoSource.reset_goodshape _ _ _ _ _ _ _ hr
      have hfu := RandomVideoSource.reset_fields _ _ _ _ _ _ _ hr
      have hrec := ih u t h hgu
      exact ⟨hrec.1, hrec.2.1.trans hfu.2.2.1, hrec.2.2.trans hfu.2.2.2.1⟩

theorem RandomVideoSource.get_image_state_fields (s : RandomVideoSource) (seed : Nat) :
    ((s.get_image seed).2).current_vid = s.current_vid ∧
    ((s.get_image seed).2).shape = s.shape ∧
    ((s.get_image seed).2).grayscale = s.grayscale := by
  unfold RandomVideoSource.get_image
  split <;> exact ⟨rfl, rfl, rfl⟩

theorem RandomVideoSource.get_image_shape (s : RandomVideoSource) (seed : Nat) :
    ((s.get_image seed).1).h = s.current_vid.h ∧
    ((s.get_image seed).1).w = s.current_vid.w ∧
    ((s.get_image seed).1).c = s.current_vid.c := by
  unfold RandomVideoSource.get_image
  split <;> exact ⟨rfl, rfl, rfl⟩

theorem RandomVideoSource.calls_fields (s : RandomVideoSource) (seedf : Nat → Nat) :
    ∀ k, (s.calls seedf k).current_vid = s.current_vid ∧
      (s.calls seedf k).shape = s.shape ∧
      (s.calls seedf k).grayscale = s.grayscale := by
  intro k
  induction k with
  | zero => exact ⟨rfl, rfl, rfl⟩
  | succ k ih =>
    have hstep := RandomVideoSource.get_image_state_fields (s.calls seedf k) (seedf k)
    exact ⟨hstep.1.trans ih.1, hstep.2.1.trans ih.2.1, hstep.2.2.trans ih.2.2⟩

/-- C1: for every configured shape (h, w), every variant's `get_image()`,
after construction and after any sequence of `reset()` calls (and, for the
video source, any further `get_image()` calls), returns an array of exactly
shape (h, w, c): c = 3 for the Fixed Color, Random Color and Noise sources,
c = 3 in color mode and 1 in grayscale mode for the image and video
sources. -/
theorem C1_get_image_shape (h w : Nat) :
    (∀ (color : Nat → Int) (k : Nat),
      (((FixedColorSource.init (h, w) color).resets k).get_image).h = h ∧
      (((FixedColorSource.init (h, w) color).resets k).get_image).w = w ∧
      (((FixedColorSource.init (h, w) color).resets k).get_image).c = 3) ∧
    (∀ (max_images : Nat) (palette : Nat → Nat → Int) (seed : Nat)
        (seeds : List Nat),
      ((((RandomColorSource.init (h, w) max_images palette seed).resets
        seeds).get_image).h = h) ∧
      ((((RandomColorSource.init (h, w) max_images palette seed).resets
        seeds).get_image).w = w) ∧
      ((((RandomColorSource.init (h, w) max_images palette seed).resets
        seeds).get_image).c = 3)) ∧
    (∀ (strength : Int) (noise : Px),
      ((NoiseSource.get_image ⟨(h, w), strength⟩ noise).h = h) ∧
      ((NoiseSource.get_image ⟨(h, w), strength⟩ noise).w = w) ∧
      ((NoiseSource.get_image ⟨(h, w), strength⟩ noise).c = 3)) ∧
    (∀ (imread : String → Bool → Option Px) (resize : Px → Nat → Nat → Px)
        (filelist : List String) (tf : Option Nat) (grayscale : Bool)
        (seed : Nat) (s : RandomImageSource),
      RandomImageSource.init imread resize (h, w) filelist tf grayscale seed =
        some s →
      ∀ seeds : List Nat,
        ((s.resets seeds).get_image).h = h ∧
        ((s.resets seeds).get_image).w = w ∧
        ((s.resets seeds).get_image).c = (if grayscale then 1 else 3)) ∧
    (∀ (vread : String → Bool → Option NpArr4) (resize : Px → Nat → Nat → Px)
        (shuffle : List String → List String) (filelist : List String)
        (random_bg : Bool) (max_videos : Nat) (grayscale : Bool)
        (seeds : Nat → Nat) (fuel locSeed : Nat) (s : RandomVideoSource),
      (RandomVideoSource.init vread resize shuffle (h, w) filelist random_bg
          max_videos grayscale seeds fuel locSeed).1 = some s →
      ∀ (ps : List ((Nat → Nat) × Nat × Nat)) (t : RandomVideoSource),
        RandomVideoSource.resets vread resize s ps = some t →
        ∀ (seedf : Nat → Nat) (k seed2 : Nat),
          ((((t.calls seedf k).get_image seed2).1).h = h) ∧
          ((((t.calls seedf k).get_image seed2).1).w = w) ∧
          ((((t.calls seedf k).get_image seed2).1).c =
            (if grayscale then 1 else 3))) := by
  refine ⟨?_, ?_, ?_, ?_, ?_⟩
  · intro color k
    rw [FixedColorSource.resets_eq]
    exact ⟨rfl, rfl, rfl⟩
  · intro max_images palette seed seeds
    exact RandomColorSource.resets_shape seeds
      (RandomColorSource.init (h, w) max_images palette seed) ⟨rfl, rfl, rfl⟩
  · intro strength noise
    exact ⟨rfl, rfl, rfl⟩
  · intro imread resize filelist tf grayscale seed s hinit seeds
    have harr : s.arr.h = h ∧ s.arr.w = w ∧
        s.arr.c = (if grayscale then 1 else 3) := by
      simp only [RandomImageSource.init, build_arr, Option.map_map,
        Option.map_eq_some'] at hinit
      obtain ⟨l, _, hs⟩ := hinit
      rw [← hs]
      exact ⟨rfl, rfl, rfl⟩
    have hres := RandomImageSource.resets_arr seeds s
    refine ⟨?_, ?_, ?_⟩
    · show (s.resets seeds).arr.h = h
      rw [hres]; exact harr.1
    · show (s.resets seeds).arr.w = w
      rw [hres]; exact harr.2.1
    · show (s.resets seeds).arr.c = _
      rw [hres]; exact harr.2.2
  · intro vread resize shuffle filelist random_bg max_videos grayscale seeds
      fuel locSeed s hinit ps t hresets seedf k seed2
    have h' : RandomVideoSource.reset vread resize
        ⟨grayscale, (h, w), (shuffle filelist).take max_videos, max_videos,
          random_bg, 0, ⟨0, 0, 0, 0, fun _ _ _ _ => 0⟩, 0⟩
        seeds fuel locSeed = some s := hinit
    have hsg := RandomVideoSource.reset_goodshape _ _ _ _ _ _ _ h'
    have hsf := RandomVideoSource.reset_fields _ _ _ _ _ _ _ h'
    have ht := RandomVideoSource.resets_goodshape _ _ ps s t hresets hsg
    have hcf := RandomVideoSource.calls_fields t seedf k
    have hgi := RandomVideoSource.get_image_shape (t.calls seedf k) seed2
    have hsh : t.shape = (h, w) := ht.2.1.trans hsf.2.2.1
    have hgr : t.grayscale = grayscale := ht.2.2.trans hsf.2.2.2.1
    refine ⟨?_, ?_, ?_⟩
    · rw [hgi.1, hcf.1, ht.1.1, hsh]
    · rw [hgi.2.1, hcf.1, ht.1.2.1, hsh]
    · rw [hgi.2.2, hcf.1, ht.1.2.2, hgr]

theorem C1_get_image_shape_witness :
    (((FixedColorSource.init (2, 2) (fun _ => 5)).resets 4).get_image).c = 3 ∧
    ((sC4.resets [9]).get_image).h = 2 ∧
    (((sV8.calls (fun _ => 0) 2).get_image 0).1).c = 3 :=
  ⟨((C1_get_image_shape 2 2).1 (fun _ => 5) 4).2.2,
    ((C1_get_image_shape 2 2).2.2.2.1 decABC resId ["a", "b", "c"] (some 5) false 0
      sC4 (Option.some_get (by decide)).symm [9]).1,
    ((C1_get_image_shape 2 2).2.2.2.2 vreadW resId id vid5 false 2 false
      (fun _ => 0) 1 0 sV8 (Option.some_get (by decide)).symm [] sV8 rfl
      (fun _ => 0) 2 0).2.2⟩

end NatImgSource
